import Mathlib

/-!
Verification of the galileo-analyzer pipeline: a shallow embedding of the
job-inventory analyzers (categorizer, cost calculator, quick code analyzer,
inventory scanner, deep scanner, AI recommender) and of the cloud provider
layer (AWS Glue pagination and error translation, Databricks/Snowflake stubs),
with theorems settling the specification claims about them.

Conventions of the embedding:
- Python dicts of job details / job runs become structures whose optional
  keys are `Option` fields (`d.get(k, default)` becomes `(field).getD default`).
- `datetime` values become `Int` timestamps counted in seconds;
  `timedelta.days` becomes floor division by 86400 (`Int.fdiv`).
- Python floats become `ℚ` (the code only adds, multiplies and divides).
- Raised exceptions become `Except PyErr` results.
- Calls into boto3 become explicit function parameters
  (`Option String → Except ClientErr Page`, etc.).
-/

namespace Galileo

/-- Python exception values raised by the code under analysis. -/
inductive PyErr where
  | nameError (name : String)
  | providerError (msg : String)
  | authenticationError (msg : String)
  | notImplementedError (msg : String)
  deriving Repr, DecidableEq

/-- `JobCategory` enum from `core/models.py`. -/
inductive JobCategory where
  | ACTIVE | RECENT | INACTIVE | ABANDONED | NEVER_RUN
  deriving Repr, DecidableEq

/-- `Priority` enum from `core/models.py`. -/
inductive Priority where
  | LOW | MEDIUM | HIGH | CRITICAL
  deriving Repr, DecidableEq

/-- The `Command` sub-dict of a Glue job-details dict. -/
structure CommandInfo where
  scriptLocation : Option String := none
  commandName : Option String := none
  deriving Repr, DecidableEq

/-- The job-details dict returned by `get_job_details` (the keys the
analyzers read; timestamps in seconds). -/
structure JobDetails where
  name : Option String := none
  command : Option CommandInfo := none
  workerType : Option String := none
  numberOfWorkers : Option ℚ := none
  maxCapacity : Option ℚ := none
  createdOn : Option Int := none
  deriving Repr, DecidableEq

/-- One job-run dict from `get_job_runs` (`StartedOn` and `JobRunState` are
always present in the API response and are indexed directly by the code;
`ExecutionTime` is read with `.get`). -/
structure JobRun where
  startedOn : Int
  jobRunState : String
  executionTime : Option ℚ := none
  deriving Repr, DecidableEq

/-- `IdleAnalysis` dataclass from `core/models.py`. -/
structure IdleAnalysis where
  category : JobCategory
  daysIdle : Int
  priority : Priority
  lastRunStatus : Option String := none
  deriving Repr, DecidableEq

/-- `CostEstimate` dataclass from `core/models.py`. -/
structure CostEstimate where
  hourlyCostUsd : ℚ
  estimatedMonthlyUsd : ℚ
  estimatedMonthlyBrl : ℚ
  deriving Repr, DecidableEq

/-- Python `max(job_runs, key=lambda x: x['StartedOn'])` on a non-empty
list: keep the first element whose key no later element strictly exceeds. -/
def latestRun (r : JobRun) (rs : List JobRun) : JobRun :=
  rs.foldl (fun best cur => if best.startedOn < cur.startedOn then cur else best) r

/-- `JobCategorizer.categorize_by_idle_time` from
`analyzers/inventory/categorizer.py`.  `now` is the value of
`datetime.now()` as a timestamp in seconds. -/
def categorize_by_idle_time (now : Int) (job_details : JobDetails)
    (job_runs : List JobRun) : IdleAnalysis :=
  match job_runs with
  | [] =>
    let created_time := job_details.createdOn.getD now
    let days_since_creation := Int.fdiv (now - created_time) 86400
    { category := JobCategory.NEVER_RUN
      daysIdle := days_since_creation
      priority := Priority.CRITICAL
      lastRunStatus := none }
  | r :: rs =>
    let last_run := latestRun r rs
    let days_idle := Int.fdiv (now - last_run.startedOn) 86400
    let cp : JobCategory × Priority :=
      if days_idle ≤ 7 then (JobCategory.ACTIVE, Priority.LOW)
      else if days_idle ≤ 30 then (JobCategory.RECENT, Priority.LOW)
      else if days_idle ≤ 90 then (JobCategory.INACTIVE, Priority.MEDIUM)
      else (JobCategory.ABANDONED, Priority.HIGH)
    { category := cp.1
      daysIdle := days_idle
      priority := cp.2
      lastRunStatus := some last_run.jobRunState }

/-- `CostCalculator.WORKER_COSTS` lookup with the `.get(worker_type, 0.44)`
default from `reporting/cost_calculator.py`. -/
def workerCost (workerType : String) : ℚ :=
  if workerType = "Standard" then 0.44
  else if workerType = "G.1X" then 0.44
  else if workerType = "G.2X" then 0.88
  else if workerType = "G.4X" then 1.76
  else if workerType = "G.8X" then 3.52
  else if workerType = "Z.2X" then 1.00
  else 0.44

/-- `CostCalculator.USD_TO_BRL`. -/
def USD_TO_BRL : ℚ := 5.2

/-- Python truthiness test `if run.get("ExecutionTime")`: the key is present
and its value is nonzero. -/
def hasTruthyExecutionTime (run : JobRun) : Bool :=
  match run.executionTime with
  | none => false
  | some t => t ≠ 0

/-- `CostCalculator.quick_cost_estimate` from `reporting/cost_calculator.py`. -/
def quick_cost_estimate (job_details : JobDetails) (job_runs : List JobRun) :
    CostEstimate :=
  let worker_type := job_details.workerType.getD "Standard"
  let num_workers := job_details.numberOfWorkers.getD 2
  let max_capacity := job_details.maxCapacity.getD num_workers
  let capacity := if max_capacity = 0 then num_workers else max_capacity
  let hourly_cost := workerCost worker_type * capacity
  let monthly_cost :=
    match job_runs with
    | [] => 0
    | _ :: _ =>
      let execution_times :=
        (job_runs.filter hasTruthyExecutionTime).map
          (fun run => run.executionTime.getD 0)
      match execution_times with
      | [] => 0
      | _ :: _ =>
        let avg_hours := execution_times.sum / execution_times.length / 3600
        hourly_cost * avg_hours * 30
  { hourlyCostUsd := hourly_cost
    estimatedMonthlyUsd := monthly_cost
    estimatedMonthlyBrl := monthly_cost * USD_TO_BRL }

/-- Days since the most recent SUCCEEDED run, as the claim words it: the spec
reads `derived from days since last successful run`.  `none` when no run
succeeded. -/
def daysSinceLastSuccessfulRun (now : Int) (job_runs : List JobRun) :
    Option Int :=
  match job_runs.filter (fun r => r.jobRunState = "SUCCEEDED") with
  | [] => none
  | r :: rs => some (Int.fdiv (now - (latestRun r rs).startedOn) 86400)

/-- The idle bucket as a function of a day count alone (thresholds of
`categorize_by_idle_time`). -/
def idleBucket (days : Int) : JobCategory :=
  if days ≤ 7 then JobCategory.ACTIVE
  else if days ≤ 30 then JobCategory.RECENT
  else if days ≤ 90 then JobCategory.INACTIVE
  else JobCategory.ABANDONED

/-- The capacity the cost calculator multiplies by: `MaxCapacity` when present
and truthy, else `NumberOfWorkers` (default 2). -/
def jobCapacity (job_details : JobDetails) : ℚ :=
  let num_workers := job_details.numberOfWorkers.getD 2
  let max_capacity := job_details.maxCapacity.getD num_workers
  if max_capacity = 0 then num_workers else max_capacity

/-- The average run duration in hours, over the runs whose `ExecutionTime`
is present and nonzero (seconds divided by 3600). -/
def avgRunDurationHours (job_runs : List JobRun) : ℚ :=
  let ts := (job_runs.filter hasTruthyExecutionTime).map
    (fun run => run.executionTime.getD 0)
  ts.sum / ts.length / 3600

/-! ### Quick code analyzer (`analyzers/static/quick_analyzer.py`) -/

/-- `sub.isSubListAt`: the character list `needle` occurs at the head of
`hay`. -/
def charsStartWith : List Char → List Char → Bool
  | [], _ => true
  | _ :: _, [] => false
  | a :: as, b :: bs => a == b && charsStartWith as bs

/-- Python substring test `needle in hay` on character lists. -/
def charsContain (hay needle : List Char) : Bool :=
  match hay with
  | [] => needle.isEmpty
  | _ :: t => charsStartWith needle hay || charsContain t needle

/-- Python substring test `needle in hay` on strings. -/
def strIn (needle hay : String) : Bool :=
  charsContain hay.toList needle.toList

/-- `any(term in name_lower for term in terms)`. -/
def anyTermIn (name_lower : String) (terms : List String) : Bool :=
  terms.any (fun t => strIn t name_lower)

/-- `QuickCodeAnalyzer._infer_purpose_from_name`. -/
def infer_purpose_from_name (job_name : String) : String :=
  let name_lower := job_name.toLower
  if anyTermIn name_lower ["etl", "extract", "transform", "load", "pipeline"] then
    "ETL Pipeline"
  else if anyTermIn name_lower ["report", "analytics", "agg", "dashboard", "metric"] then
    "Analytics/Reporting"
  else if anyTermIn name_lower ["clean", "quality", "validate", "check", "audit"] then
    "Data Quality"
  else if anyTermIn name_lower ["test", "dev", "temp", "tmp", "debug", "sample"] then
    "Development/Testing"
  else if anyTermIn name_lower ["model", "train", "predict", "ml", "ai", "feature"] then
    "Machine Learning"
  else if anyTermIn name_lower ["migrate", "migration", "import", "export", "sync"] then
    "Data Migration"
  else "Unknown"

/-- Body of the regex `[a-zA-Z][a-zA-Z0-9_-]*` anchored at both ends, on a
character list. -/
def nameRegexCore : List Char → Bool
  | [] => false
  | c :: rest =>
    c.isAlpha && rest.all (fun ch => ch.isAlpha || ch.isDigit || ch == '_' || ch == '-')

/-- Python `re.match(r"^[a-zA-Z][a-zA-Z0-9_-]*$", s)`: the `$` anchor also
matches just before a single trailing newline. -/
def matchesNamingConvention (s : String) : Bool :=
  nameRegexCore s.toList ||
    (s.endsWith "\n" && nameRegexCore (s.toList.dropLast))

/-- `validate_job_name` from `utils/validators.py` (issue strings abbreviated;
only their presence and count matter to the analyzers). -/
def validate_job_name (job_name : String) : List String :=
  let name_lower := job_name.toLower
  (if job_name.length < 3 then ["Job name too short (less than 3 characters)"] else [])
  ++ (if job_name.length > 255 then ["Job name too long (more than 255 characters)"] else [])
  ++ (["test", "tmp", "temp", "dev", "debug", "sample"].filterMap
        (fun pat => if strIn pat name_lower then
          some ("Development/test pattern " ++ pat ++ " found in job name")
        else none))
  ++ (if matchesNamingConvention job_name then []
      else ["Job name does not follow standard naming convention"])
  ++ (if strIn " " job_name then ["Job name contains spaces"] else [])

/-- `QuickCodeAnalysis` dataclass from `core/models.py` (the dict built by
`quick_code_analysis`). -/
structure QuickCodeAnalysis where
  hasScript : Bool
  scriptLocation : String
  inferredPurpose : String
  namingIssues : List String
  deriving Repr, DecidableEq

/-- `QuickCodeAnalyzer.quick_code_analysis` from
`analyzers/static/quick_analyzer.py`. -/
def quick_code_analysis (job_details : JobDetails) : QuickCodeAnalysis :=
  let script_location := ((job_details.command.getD {}).scriptLocation).getD ""
  let job_name := job_details.name.getD ""
  { hasScript := script_location ≠ ""
    scriptLocation := script_location
    inferredPurpose := infer_purpose_from_name job_name
    namingIssues := validate_job_name job_name }

/-! ### Remaining dataclasses of `core/models.py` -/

/-- `JobConfig` dataclass. -/
structure JobConfig where
  glueVersion : Option String := none
  workerType : Option String := none
  numberOfWorkers : Option ℚ := none
  timeLimit : Option Int := none
  maxRetries : Option Int := none
  description : Option String := none
  jobMode : Option String := none
  jobType : Option String := none
  executionClass : Option String := none
  scriptType : Option String := none
  scriptLocation : Option String := none
  avgExecutionTimeMinutes : Option ℚ := none
  maxCapacity : Option ℚ := none
  allocatedCapacity : Option Int := none
  deriving Repr, DecidableEq

/-- `TagsInfo` dataclass. -/
structure TagsInfo where
  environment : String := "unknown"
  team : String := "unknown"
  businessDomain : String := "unknown"
  criticality : String := "unknown"
  owner : String := "unknown"
  deriving Repr, DecidableEq

/-- `JobAnalysisResult` dataclass (timestamps in seconds; the
`candidate_for_deep_analysis` dict as a key/value list). -/
structure JobAnalysisResult where
  jobName : String
  timestamp : Option Int := none
  jobConfig : JobConfig := {}
  idleAnalysis : IdleAnalysis
  costEstimate : CostEstimate
  tagsInfo : TagsInfo := {}
  codeAnalysis : QuickCodeAnalysis
  recentRunsCount : Nat := 0
  candidateForDeepAnalysis : List (String × Bool) := []
  deriving Repr, DecidableEq

/-- `CodeAnalysis` dataclass (deep scan; all fields default `None`). -/
structure CodeAnalysis where
  scriptContent : Option String := none
  scriptSizeKb : Option ℚ := none
  complexityScore : Option Int := none
  dependencies : Option (List String) := none
  sqlQueriesCount : Option Int := none
  sparkOperations : Option (List String) := none
  performanceIssues : Option (List String) := none
  securityIssues : Option (List String) := none
  bestPracticesViolations : Option (List String) := none
  deriving Repr, DecidableEq

/-- `PerformanceAnalysis` dataclass. -/
structure PerformanceAnalysis where
  avgCpuUtilization : Option ℚ := none
  avgMemoryUtilization : Option ℚ := none
  dataProcessedGb : Option ℚ := none
  costPerGb : Option ℚ := none
  efficiencyScore : Option ℚ := none
  bottlenecks : Option (List String) := none
  optimizationOpportunities : Option (List String) := none
  deriving Repr, DecidableEq

/-- `DependencyAnalysis` dataclass. -/
structure DependencyAnalysis where
  inputSources : Option (List String) := none
  outputDestinations : Option (List String) := none
  upstreamJobs : Option (List String) := none
  downstreamJobs : Option (List String) := none
  scheduleConflicts : Option (List String) := none
  deriving Repr, DecidableEq

/-- `AIRecommendations` dataclass. -/
structure AIRecommendations where
  optimizationSuggestions : Option (List String) := none
  costReductionOpportunities : Option (List String) := none
  modernizationRecommendations : Option (List String) := none
  riskAssessment : Option String := none
  priorityScore : Option ℚ := none
  estimatedSavingsBrl : Option ℚ := none
  deriving Repr, DecidableEq

/-- `DeepAnalysisResult` dataclass. -/
structure DeepAnalysisResult where
  jobName : String
  timestamp : Int
  preliminaryResult : JobAnalysisResult
  codeAnalysis : CodeAnalysis
  performanceAnalysis : PerformanceAnalysis
  dependencyAnalysis : DependencyAnalysis
  aiRecommendations : AIRecommendations
  analysisDurationSeconds : Option ℚ := none
  deriving Repr, DecidableEq

/-! ### Deep scanner (`analyzers/deep/deep_scanner.py`)

The module body of `deep_scanner.py` binds exactly the names of its import
statements and its single class statement.  The module references
`datetime` (line 78, `timestamp=datetime.now()`), `CodeAnalysis`,
`PerformanceAnalysis` and `DependencyAnalysis` (`_get_empty_analysis`),
none of which is imported, so evaluating those references raises
`NameError`.  We model global name resolution explicitly. -/

/-- The global names bound in `deep_scanner.py`: its imports
(`asyncio`, `time`, `ThreadPoolExecutor`, typing names, the two model
classes, the provider, the four analyzer classes, `setup_logger`) and the
class `DeepScanner` itself. -/
def deepScannerModuleScope : List String :=
  ["asyncio", "time", "ThreadPoolExecutor", "List", "Optional", "Dict", "Any",
   "JobAnalysisResult", "DeepAnalysisResult", "GlueProvider",
   "DeepCodeAnalyzer", "PerformanceAnalyzer", "DependencyAnalyzer",
   "AIRecommender", "setup_logger", "DeepScanner"]

/-- Resolving a global name inside `deep_scanner.py`: `NameError` when the
name is not bound in the module scope. -/
def lookupGlobal (n : String) : Except PyErr Unit :=
  if deepScannerModuleScope.contains n then Except.ok () else
    Except.error (PyErr.nameError n)

/-- `_get_empty_analysis("code")`: evaluates the global `CodeAnalysis` and
calls it with the dataclass defaults. -/
def get_empty_code_analysis : Except PyErr CodeAnalysis :=
  match lookupGlobal "CodeAnalysis" with
  | Except.error e => Except.error e
  | Except.ok _ => Except.ok {}

/-- `_get_empty_analysis("performance")`. -/
def get_empty_performance_analysis : Except PyErr PerformanceAnalysis :=
  match lookupGlobal "PerformanceAnalysis" with
  | Except.error e => Except.error e
  | Except.ok _ => Except.ok {}

/-- `_get_empty_analysis("dependencies")`. -/
def get_empty_dependency_analysis : Except PyErr DependencyAnalysis :=
  match lookupGlobal "DependencyAnalysis" with
  | Except.error e => Except.error e
  | Except.ok _ => Except.ok {}

/-- `DeepScanner.analyze_job_deeply`.  The three awaited sub-analysis tasks
and the AI-recommendation step are parameters (their outcomes); `now` and
`duration` stand for `datetime.now()` and `time.time() - start_time`.  Each
failed task is replaced via `_get_empty_analysis`; the final
`DeepAnalysisResult(...)` call evaluates `datetime.now()`, which resolves
the global `datetime`. -/
def analyze_job_deeply (preliminary_result : JobAnalysisResult)
    (codeTask : Except PyErr CodeAnalysis)
    (perfTask : Except PyErr PerformanceAnalysis)
    (depTask : Except PyErr DependencyAnalysis)
    (ai_recommendations : AIRecommendations)
    (now : Int) (duration : ℚ) : Except PyErr DeepAnalysisResult := do
  let code ← match codeTask with
    | Except.ok c => Except.ok c
    | Except.error _ => get_empty_code_analysis
  let perf ← match perfTask with
    | Except.ok p => Except.ok p
    | Except.error _ => get_empty_performance_analysis
  let dep ← match depTask with
    | Except.ok d => Except.ok d
    | Except.error _ => get_empty_dependency_analysis
  let _ ← lookupGlobal "datetime"
  Except.ok
    { jobName := preliminary_result.jobName
      timestamp := now
      preliminaryResult := preliminary_result
      codeAnalysis := code
      performanceAnalysis := perf
      dependencyAnalysis := dep
      aiRecommendations := ai_recommendations
      analysisDurationSeconds := some duration }

/-! ### Inventory scanner (`analyzers/inventory/scanner.py`) -/

/-- `InventoryScanner.scan_jobs`: one future is submitted per element of
`job_names`; `as_completed` yields the futures in a nondeterministic order
(`completion_order`, a permutation of `job_names`); `future.result()`
re-raises a failed analysis, which is caught and logged, so only successful
results are appended. -/
def scan_jobs (analyze : String → Except PyErr JobAnalysisResult)
    (completion_order : List String) : List JobAnalysisResult :=
  completion_order.filterMap (fun job_name => (analyze job_name).toOption)

/-! ### AI recommender (`analyzers/deep/ai_recommender.py`) -/

/-- Cost block of `AIRecommender._calculate_priority_score` (40% of the
score). -/
def costScore (cost : ℚ) : ℚ :=
  if cost > 2000 then 40
  else if cost > 1000 then 30
  else if cost > 500 then 20
  else if cost > 100 then 10
  else 0

/-- Efficiency block of `_calculate_priority_score` (30%).  Python
truthiness makes an efficiency score of `None` or `0` contribute nothing. -/
def effScore (efficiency : Option ℚ) : ℚ :=
  match efficiency with
  | none => 0
  | some e =>
    if e ≠ 0 ∧ e < 30 then 30
    else if e ≠ 0 ∧ e < 50 then 20
    else if e ≠ 0 ∧ e < 70 then 10
    else 0

/-- Job-status block of `_calculate_priority_score` (20%). -/
def catScore (category : JobCategory) : ℚ :=
  match category with
  | JobCategory.NEVER_RUN => 20
  | JobCategory.ABANDONED => 15
  | JobCategory.INACTIVE => 10
  | _ => 0

/-- Naming-issue block of `_calculate_priority_score` (10%; the source adds
5 when the issue list is non-empty). -/
def nameScore (naming_issues : List String) : ℚ :=
  if naming_issues ≠ [] then 5 else 0

/-- `AIRecommender._calculate_priority_score`: the sum of the four threshold
blocks, capped with `min(100, score)`. -/
def calculate_priority_score (preliminary_result : JobAnalysisResult)
    (performance_analysis : PerformanceAnalysis) : ℚ :=
  min 100
    (costScore preliminary_result.costEstimate.estimatedMonthlyBrl
      + effScore performance_analysis.efficiencyScore
      + catScore preliminary_result.idleAnalysis.category
      + nameScore preliminary_result.codeAnalysis.namingIssues)

/-! ### Cloud providers (`providers/`) -/

/-- A boto3 `ClientError`: an error code and the `str(e)` rendering. -/
structure ClientErr where
  code : String
  msg : String := ""
  deriving Repr, DecidableEq

/-- One page of a Glue `list_jobs` response. -/
structure GluePage where
  jobNames : List String := []
  nextToken : Option String := none
  deriving Repr, DecidableEq

/-- The `while True` pagination loop of `GlueProvider.get_all_jobs`.
`fuel` is the number of further pages the safety break still allows
(`page_count > 50` is tested after each page, so the first call enters with
fuel 50 and at most 51 pages are read). -/
def get_all_jobs_loop (api : Option String → Except ClientErr GluePage) :
    Nat → Option String → List String → Except ClientErr (List String)
  | 0, next_token, acc =>
    match api next_token with
    | Except.error e => Except.error e
    | Except.ok page =>
      let acc := acc ++ page.jobNames
      match page.nextToken with
      | none => Except.ok acc
      | some _ => Except.ok acc
  | fuel' + 1, next_token, acc =>
    match api next_token with
    | Except.error e => Except.error e
    | Except.ok page =>
      let acc := acc ++ page.jobNames
      match page.nextToken with
      | none => Except.ok acc
      | some t => get_all_jobs_loop api fuel' (some t) acc

/-- `GlueProvider.get_all_jobs`: the pagination loop, with any `ClientError`
translated into `ProviderError`. -/
def GlueProvider.get_all_jobs (authenticated : Bool)
    (api : Option String → Except ClientErr GluePage) :
    Except PyErr (List String) :=
  if !authenticated then
    Except.error (PyErr.authenticationError "Provider not authenticated")
  else
    match get_all_jobs_loop api 50 none [] with
    | Except.ok names => Except.ok names
    | Except.error e =>
      Except.error (PyErr.providerError ("Failed to list jobs: " ++ e.msg))

/-- The chain of pages `get_all_jobs` visits, written from the claim: follow
`NextToken` until it is absent or the safety limit is reached, failing on
the first client error. -/
def glue_page_chain (api : Option String → Except ClientErr GluePage) :
    Nat → Option String → Except ClientErr (List GluePage)
  | 0, tok =>
    match api tok with
    | Except.error e => Except.error e
    | Except.ok page => Except.ok [page]
  | fuel' + 1, tok =>
    match api tok with
    | Except.error e => Except.error e
    | Except.ok page =>
      match page.nextToken with
      | none => Except.ok [page]
      | some t => (glue_page_chain api fuel' (some t)).map (page :: ·)

/-- `GlueProvider.get_job_details`: `response["Job"]` on success;
`EntityNotFoundException` and every other `ClientError` both become
`ProviderError`. -/
def GlueProvider.get_job_details (authenticated : Bool)
    (api : String → Except ClientErr JobDetails) (job_name : String) :
    Except PyErr JobDetails :=
  if !authenticated then
    Except.error (PyErr.authenticationError "Provider not authenticated")
  else
    match api job_name with
    | Except.ok job => Except.ok job
    | Except.error e =>
      if e.code = "EntityNotFoundException" then
        Except.error (PyErr.providerError ("Job " ++ job_name ++ " not found"))
      else
        Except.error (PyErr.providerError ("Failed to get job details: " ++ e.msg))

/-- `GlueProvider.get_recent_runs`: `EntityNotFoundException` yields `[]`;
every other `ClientError` becomes `ProviderError`. -/
def GlueProvider.get_recent_runs (authenticated : Bool)
    (api : String → Int → Except ClientErr (List JobRun))
    (job_name : String) (max_results : Int) : Except PyErr (List JobRun) :=
  if !authenticated then
    Except.error (PyErr.authenticationError "Provider not authenticated")
  else
    match api job_name max_results with
    | Except.ok runs => Except.ok runs
    | Except.error e =>
      if e.code = "EntityNotFoundException" then Except.ok []
      else
        Except.error (PyErr.providerError ("Failed to get job runs: " ++ e.msg))

/-- `DatabricksProvider.authenticate` (`providers/databricks/connector.py`). -/
def DatabricksProvider.authenticate : Except PyErr Bool :=
  Except.error (PyErr.notImplementedError
    "Databricks provider is not yet implemented. Coming in future version. Use --provider aws for now.")

/-- `DatabricksProvider.get_all_jobs`. -/
def DatabricksProvider.get_all_jobs : Except PyErr (List String) :=
  Except.error (PyErr.notImplementedError "Databricks provider not yet implemented")

/-- `DatabricksProvider.get_job_details`. -/
def DatabricksProvider.get_job_details (job_name : String) :
    Except PyErr JobDetails :=
  Except.error (PyErr.notImplementedError "Databricks provider not yet implemented")

/-- `DatabricksProvider.get_recent_runs`. -/
def DatabricksProvider.get_recent_runs (job_name : String) (max_results : Int) :
    Except PyErr (List JobRun) :=
  Except.error (PyErr.notImplementedError "Databricks provider not yet implemented")

/-- `SnowflakeProvider.authenticate` (`providers/snowflake/connector.py`). -/
def SnowflakeProvider.authenticate : Except PyErr Bool :=
  Except.error (PyErr.notImplementedError
    "Snowflake provider is not yet implemented. Coming in future version. Use --provider aws for now.")

/-- `SnowflakeProvider.get_all_jobs`. -/
def SnowflakeProvider.get_all_jobs : Except PyErr (List String) :=
  Except.error (PyErr.notImplementedError "Snowflake provider not yet implemented")

/-- `SnowflakeProvider.get_job_details`. -/
def SnowflakeProvider.get_job_details (job_name : String) :
    Except PyErr JobDetails :=
  Except.error (PyErr.notImplementedError "Snowflake provider not yet implemented")

/-- `SnowflakeProvider.get_recent_runs`. -/
def SnowflakeProvider.get_recent_runs (job_name : String) (max_results : Int) :
    Except PyErr (List JobRun) :=
  Except.error (PyErr.notImplementedError "Snowflake provider not yet implemented")

/-- The operation raised `NotImplementedError`. -/
def raisesNotImplemented {α : Type} (x : Except PyErr α) : Prop :=
  ∃ msg, x = Except.error (PyErr.notImplementedError msg)

/-- A concrete preliminary analysis used to instantiate the scanner: it
succeeds on the job `etl-sales` and fails on every other job. -/
def sampleAnalyze (job_name : String) : Except PyErr JobAnalysisResult :=
  if job_name = "etl-sales" then
    Except.ok
      { jobName := "etl-sales"
        idleAnalysis :=
          { category := JobCategory.ACTIVE, daysIdle := 0, priority := Priority.LOW }
        costEstimate :=
          { hourlyCostUsd := 0, estimatedMonthlyUsd := 0, estimatedMonthlyBrl := 0 }
        codeAnalysis :=
          { hasScript := false, scriptLocation := ""
            inferredPurpose := "Unknown", namingIssues := [] } }
  else Except.error (PyErr.providerError "could not fetch job details")

end Galileo

open Galileo

/-! ## Theorems settling the claims -/

/-- C1 (counterexample): the idle category is not a function of the number
of days since the last successful run.  Two run lists whose most recent
SUCCEEDED run is the same (100 days old) are bucketed differently, because
`categorize_by_idle_time` keys on the most recent run regardless of its
state: adding a FAILED run 1 day old flips the category from ABANDONED to
ACTIVE. -/
theorem categorize_not_by_last_success :
    daysSinceLastSuccessfulRun 86400000 [⟨77760000, "SUCCEEDED", none⟩] = some 100
    ∧ daysSinceLastSuccessfulRun 86400000
        [⟨77760000, "SUCCEEDED", none⟩, ⟨86313600, "FAILED", none⟩] = some 100
    ∧ (categorize_by_idle_time 86400000 {} [⟨77760000, "SUCCEEDED", none⟩]).category
        = JobCategory.ABANDONED
    ∧ (categorize_by_idle_time 86400000 {}
        [⟨77760000, "SUCCEEDED", none⟩, ⟨86313600, "FAILED", none⟩]).category
        = JobCategory.ACTIVE := by
  refine ⟨rfl, rfl, ?_, ?_⟩ <;> decide

/-- C1 (amended): `categorize_by_idle_time` returns one of the five
lifecycle categories, returns NEVER_RUN exactly when the run list is empty,
and otherwise buckets the job by the number of days since its most recent
run (latest `StartedOn`), regardless of that run's state. -/
theorem categorize_by_idle_time_spec (now : Int) (d : JobDetails)
    (runs : List JobRun) :
    ((categorize_by_idle_time now d runs).category = JobCategory.NEVER_RUN
      ↔ runs = [])
    ∧ (∀ r rs, runs = r :: rs →
        (categorize_by_idle_time now d runs).category =
          idleBucket (Int.fdiv (now - (latestRun r rs).startedOn) 86400)) := by
  constructor
  · cases runs with
    | nil => simp [categorize_by_idle_time]
    | cons r rs =>
      simp only [categorize_by_idle_time]
      constructor
      · intro h
        exfalso
        revert h
        split_ifs <;> simp
      · intro h
        exact absurd h (by simp)
  · rintro r rs rfl
    simp only [categorize_by_idle_time, idleBucket]
    split_ifs <;> rfl

/-- Witness for C1 (amended) at a single run 10 days old. -/
theorem categorize_by_idle_time_spec_witness :
    ([(⟨0, "SUCCEEDED", none⟩ : JobRun)] = (⟨0, "SUCCEEDED", none⟩ : JobRun) :: [])
    ∧ (categorize_by_idle_time 864000 {} [⟨0, "SUCCEEDED", none⟩]).category =
        idleBucket (Int.fdiv (864000 - (latestRun ⟨0, "SUCCEEDED", none⟩ []).startedOn) 86400) :=
  ⟨rfl, (categorize_by_idle_time_spec 864000 {} [⟨0, "SUCCEEDED", none⟩]).2
    ⟨0, "SUCCEEDED", none⟩ [] rfl⟩

/-- C2: when at least one run has a nonzero `ExecutionTime` (so an average
run duration exists), `quick_cost_estimate` returns the hourly cost as the
static per-worker-type rate times the job capacity, the monthly USD cost as
hourly cost times average run duration in hours times 30, and the monthly
BRL cost as the USD cost times the fixed factor `USD_TO_BRL = 5.2`. -/
theorem quick_cost_estimate_formula (d : JobDetails) (runs : List JobRun)
    (h : runs.filter hasTruthyExecutionTime ≠ []) :
    quick_cost_estimate d runs =
      { hourlyCostUsd := workerCost (d.workerType.getD "Standard") * jobCapacity d
        estimatedMonthlyUsd :=
          workerCost (d.workerType.getD "Standard") * jobCapacity d *
            avgRunDurationHours runs * 30
        estimatedMonthlyBrl :=
          workerCost (d.workerType.getD "Standard") * jobCapacity d *
            avgRunDurationHours runs * 30 * USD_TO_BRL } := by
  have h0 : runs ≠ [] := by
    intro he
    exact h (by simp [he])
  obtain ⟨a, l, rfl⟩ : ∃ a l, runs = a :: l := by
    cases runs with
    | nil => exact absurd rfl h0
    | cons a l => exact ⟨a, l, rfl⟩
  obtain ⟨t, ts, het⟩ :
      ∃ t ts, ((a :: l).filter hasTruthyExecutionTime).map
        (fun run => run.executionTime.getD 0) = t :: ts := by
    cases hf : (a :: l).filter hasTruthyExecutionTime with
    | nil => exact absurd hf h
    | cons x xs =>
      exact ⟨x.executionTime.getD 0,
        xs.map (fun run => run.executionTime.getD 0), by simp [hf]⟩
  simp only [quick_cost_estimate, jobCapacity, avgRunDurationHours, het]

/-- Witness for C2: a `G.2X` job with two workers and a single two-hour run
costs 0.88·2 = 1.76 USD hourly, 1.76·2·30 = 105.6 USD monthly and
105.6·5.2 = 549.12 BRL monthly. -/
theorem quick_cost_estimate_formula_witness :
    ([(⟨0, "SUCCEEDED", some 7200⟩ : JobRun)].filter hasTruthyExecutionTime ≠ [])
    ∧ quick_cost_estimate
        { workerType := some "G.2X" } [⟨0, "SUCCEEDED", some 7200⟩] =
      { hourlyCostUsd :=
          workerCost ((JobDetails.workerType { workerType := some "G.2X" }).getD "Standard") *
            jobCapacity { workerType := some "G.2X" }
        estimatedMonthlyUsd :=
          workerCost ((JobDetails.workerType { workerType := some "G.2X" }).getD "Standard") *
            jobCapacity { workerType := some "G.2X" } *
            avgRunDurationHours [⟨0, "SUCCEEDED", some 7200⟩] * 30
        estimatedMonthlyBrl :=
          workerCost ((JobDetails.workerType { workerType := some "G.2X" }).getD "Standard") *
            jobCapacity { workerType := some "G.2X" } *
            avgRunDurationHours [⟨0, "SUCCEEDED", some 7200⟩] * 30 * USD_TO_BRL } :=
  ⟨by decide, quick_cost_estimate_formula { workerType := some "G.2X" }
    [⟨0, "SUCCEEDED", some 7200⟩] (by decide)⟩

/-- C9: when the run list is empty, or no run has a nonzero
`ExecutionTime`, the estimated monthly cost is 0 in both USD and BRL while
the hourly cost is still computed from the worker type and capacity. -/
theorem quick_cost_estimate_zero_monthly (d : JobDetails) (runs : List JobRun)
    (h : runs.filter hasTruthyExecutionTime = []) :
    quick_cost_estimate d runs =
      { hourlyCostUsd := workerCost (d.workerType.getD "Standard") * jobCapacity d
        estimatedMonthlyUsd := 0
        estimatedMonthlyBrl := 0 } := by
  cases runs with
  | nil => simp [quick_cost_estimate, jobCapacity, USD_TO_BRL]
  | cons a l =>
    have het : ((a :: l).filter hasTruthyExecutionTime).map
        (fun run => run.executionTime.getD 0) = [] := by
      rw [h]
      rfl
    simp only [quick_cost_estimate, jobCapacity, het]
    exact congrArg _ (by norm_num)

/-- Witness for C9: a run list whose only run has `ExecutionTime` 0 yields a
zero monthly estimate, with the hourly cost still 0.44·2. -/
theorem quick_cost_estimate_zero_monthly_witness :
    ([(⟨0, "SUCCEEDED", some 0⟩ : JobRun)].filter hasTruthyExecutionTime = [])
    ∧ quick_cost_estimate {} [⟨0, "SUCCEEDED", some 0⟩] =
      { hourlyCostUsd :=
          workerCost ((JobDetails.workerType {}).getD "Standard") * jobCapacity {}
        estimatedMonthlyUsd := 0
        estimatedMonthlyBrl := 0 } :=
  ⟨by decide, quick_cost_estimate_zero_monthly {} [⟨0, "SUCCEEDED", some 0⟩] (by decide)⟩

/-- C3 (code bug): `analyze_job_deeply` can never merge its results.  Even
when all three sub-analyses succeed, constructing the `DeepAnalysisResult`
evaluates `datetime.now()` and `deep_scanner.py` never imports `datetime`,
so the call raises `NameError` instead of returning a result; and when the
code sub-analysis fails, the `_get_empty_analysis` fallback itself raises
`NameError` because `CodeAnalysis` is not imported either. -/
theorem analyze_job_deeply_name_error (p : JobAnalysisResult)
    (c : CodeAnalysis) (perf : PerformanceAnalysis) (dep : DependencyAnalysis)
    (ai : AIRecommendations) (now : Int) (dur : ℚ) :
    (analyze_job_deeply p (Except.ok c) (Except.ok perf) (Except.ok dep) ai now dur
      = Except.error (PyErr.nameError "datetime"))
    ∧ (∀ (e : PyErr) (perfTask : Except PyErr PerformanceAnalysis)
        (depTask : Except PyErr DependencyAnalysis),
        analyze_job_deeply p (Except.error e) perfTask depTask ai now dur
          = Except.error (PyErr.nameError "CodeAnalysis")) := by
  constructor
  · rfl
  · intro e perfTask depTask
    rfl

/-- C4: every operation of the Databricks and Snowflake provider stubs
raises `NotImplementedError`, for every input. -/
theorem stub_providers_not_implemented (job_name : String) (max_results : Int) :
    raisesNotImplemented DatabricksProvider.authenticate
    ∧ raisesNotImplemented DatabricksProvider.get_all_jobs
    ∧ raisesNotImplemented (DatabricksProvider.get_job_details job_name)
    ∧ raisesNotImplemented (DatabricksProvider.get_recent_runs job_name max_results)
    ∧ raisesNotImplemented SnowflakeProvider.authenticate
    ∧ raisesNotImplemented SnowflakeProvider.get_all_jobs
    ∧ raisesNotImplemented (SnowflakeProvider.get_job_details job_name)
    ∧ raisesNotImplemented (SnowflakeProvider.get_recent_runs job_name max_results) :=
  ⟨⟨_, rfl⟩, ⟨_, rfl⟩, ⟨_, rfl⟩, ⟨_, rfl⟩, ⟨_, rfl⟩, ⟨_, rfl⟩, ⟨_, rfl⟩, ⟨_, rfl⟩⟩

/-- C5: `quick_code_analysis` reads only the `Name` field and the
`Command.ScriptLocation` field of the job details: any two inputs agreeing
on those fields produce equal results.  In particular no script content is
fetched — the analysis is a pure function of these two fields and takes no
provider at all. -/
theorem quick_code_analysis_noninterference (d1 d2 : JobDetails)
    (hname : d1.name = d2.name)
    (hloc : (d1.command.getD {}).scriptLocation = (d2.command.getD {}).scriptLocation) :
    quick_code_analysis d1 = quick_code_analysis d2 := by
  simp only [quick_code_analysis, hname, hloc]

/-- Witness for C5: two job-details dicts with the same name and script
location but different worker types and capacities analyze identically. -/
theorem quick_code_analysis_noninterference_witness :
    (JobDetails.name
        { name := some "etl-sales", command := some { scriptLocation := some "s3://b/s.py" } }
      = JobDetails.name
        { name := some "etl-sales", command := some { scriptLocation := some "s3://b/s.py" }
          workerType := some "G.8X", maxCapacity := some 10 })
    ∧ quick_code_analysis
        { name := some "etl-sales", command := some { scriptLocation := some "s3://b/s.py" } }
      = quick_code_analysis
        { name := some "etl-sales", command := some { scriptLocation := some "s3://b/s.py" }
          workerType := some "G.8X", maxCapacity := some 10 } :=
  ⟨rfl, quick_code_analysis_noninterference
    { name := some "etl-sales", command := some { scriptLocation := some "s3://b/s.py" } }
    { name := some "etl-sales", command := some { scriptLocation := some "s3://b/s.py" }
      workerType := some "G.8X", maxCapacity := some 10 } rfl rfl⟩

/-- Helper: the scanner keeps exactly the successfully analyzed jobs. -/
theorem scan_jobs_length_eq (analyze : String → Except PyErr JobAnalysisResult) :
    ∀ l : List String,
      (scan_jobs analyze l).length = l.countP (fun j => (analyze j).toOption.isSome) := by
  intro l
  induction l with
  | nil => rfl
  | cons j t ih =>
    simp only [scan_jobs, List.filterMap_cons, List.countP_cons] at *
    cases h : (analyze j).toOption with
    | none => simp [h, ih]
    | some r => simp [h, ih]

/-- Helper: per-name multiplicity bound for the scanner, assuming each
successful analysis reports the job name it was given. -/
theorem scan_jobs_count_le (analyze : String → Except PyErr JobAnalysisResult)
    (hname : ∀ j r, analyze j = Except.ok r → r.jobName = j) (n : String) :
    ∀ l : List String,
      (scan_jobs analyze l).countP (fun r => r.jobName == n) ≤ l.count n := by
  intro l
  induction l with
  | nil => simp [scan_jobs]
  | cons j t ih =>
    simp only [scan_jobs, Except.toOption] at ih ⊢
    rw [List.filterMap_cons]
    cases h : analyze j with
    | error e =>
      simp only [h, List.count_cons]
      refine ih.trans ?_
      split <;> omega
    | ok r =>
      have hr : r.jobName = j := hname j r h
      simp only [h, List.countP_cons, List.count_cons, hr]
      by_cases hjn : j = n
      · subst hjn
        simp only [beq_self_eq_true, if_pos]
        omega
      · have e1 : (j == n) = false := beq_eq_false_iff_ne.mpr hjn
        rw [e1]
        simpa using ih

/-- C6: with one future submitted per element of the input list and results
collected in an arbitrary completion order, the scan returns one result per
job whose preliminary analysis succeeds and omits the failing ones: its
length is the number of successfully analyzed input jobs, hence at most the
number of input job names, and no job name occurs in the output more often
than in the input. -/
theorem scan_jobs_spec (analyze : String → Except PyErr JobAnalysisResult)
    (job_names completion_order : List String)
    (hperm : completion_order.Perm job_names)
    (hname : ∀ j r, analyze j = Except.ok r → r.jobName = j) :
    (scan_jobs analyze completion_order).length
        = job_names.countP (fun j => (analyze j).toOption.isSome)
    ∧ (scan_jobs analyze completion_order).length ≤ job_names.length
    ∧ ∀ n, (scan_jobs analyze completion_order).countP (fun r => r.jobName == n)
        ≤ job_names.count n := by
  refine ⟨?_, ?_, ?_⟩
  · rw [scan_jobs_length_eq, hperm.countP_eq]
  · rw [scan_jobs_length_eq, hperm.countP_eq]
    exact List.countP_le_length _
  · intro n
    calc (scan_jobs analyze completion_order).countP (fun r => r.jobName == n)
        ≤ completion_order.count n := scan_jobs_count_le analyze hname n completion_order
      _ = job_names.count n := hperm.count_eq n

/-- Witness for C6: two jobs, one succeeding and one failing, collected in
reversed completion order. -/
theorem scan_jobs_spec_witness :
    (["other", "etl-sales"].Perm ["etl-sales", "other"])
    ∧ (∀ j r, sampleAnalyze j = Except.ok r → r.jobName = j)
    ∧ ((scan_jobs sampleAnalyze ["other", "etl-sales"]).length
        = (["etl-sales", "other"]).countP (fun j => (sampleAnalyze j).toOption.isSome)
      ∧ (scan_jobs sampleAnalyze ["other", "etl-sales"]).length
          ≤ (["etl-sales", "other"] : List String).length
      ∧ ∀ n, (scan_jobs sampleAnalyze ["other", "etl-sales"]).countP
            (fun r => r.jobName == n)
          ≤ (["etl-sales", "other"] : List String).count n) := by
  have hname : ∀ j r, sampleAnalyze j = Except.ok r → r.jobName = j := by
    intro j r h
    unfold sampleAnalyze at h
    split at h
    · next hj =>
      injection h with h
      rw [← h, hj]
    · exact absurd h (by simp)
  exact ⟨by decide, hname,
    scan_jobs_spec sampleAnalyze ["etl-sales", "other"] ["other", "etl-sales"]
      (by decide) hname⟩

/-- Helper: the pagination loop accumulates exactly the concatenated
`JobNames` of the page chain. -/
theorem get_all_jobs_loop_pages (api : Option String → Except ClientErr GluePage)
    (fuel : Nat) :
    ∀ (tok : Option String) (acc : List String),
      get_all_jobs_loop api fuel tok acc =
        (glue_page_chain api fuel tok).map
          (fun pages => acc ++ (pages.map GluePage.jobNames).flatten) := by
  induction fuel with
  | zero =>
    intro tok acc
    cases hapi : api tok with
    | error e => simp [get_all_jobs_loop, glue_page_chain, hapi, Except.map]
    | ok page =>
      cases hnt : page.nextToken with
      | none => simp [get_all_jobs_loop, glue_page_chain, hapi, hnt, Except.map]
      | some t => simp [get_all_jobs_loop, glue_page_chain, hapi, hnt, Except.map]
  | succ n ih =>
    intro tok acc
    cases hapi : api tok with
    | error e => simp [get_all_jobs_loop, glue_page_chain, hapi, Except.map]
    | ok page =>
      cases hnt : page.nextToken with
      | none => simp [get_all_jobs_loop, glue_page_chain, hapi, hnt, Except.map]
      | some t =>
        simp only [get_all_jobs_loop, glue_page_chain, hapi, hnt]
        rw [ih (some t) (acc ++ page.jobNames)]
        cases glue_page_chain api n (some t) with
        | error e => rfl
        | ok pages => simp [Except.map]

/-- C7: `get_all_jobs` returns the concatenation, in page order, of the
`JobNames` lists along the `NextToken` chain (stopping when the token is
absent or the page safety limit of 51 read pages is hit), and any client
error during listing is translated into a `ProviderError`. -/
theorem get_all_jobs_concatenates_pages
    (api : Option String → Except ClientErr GluePage) :
    GlueProvider.get_all_jobs true api =
      (match glue_page_chain api 50 none with
       | Except.ok pages => Except.ok (pages.map GluePage.jobNames).flatten
       | Except.error e =>
         Except.error (PyErr.providerError ("Failed to list jobs: " ++ e.msg))) := by
  unfold GlueProvider.get_all_jobs
  rw [get_all_jobs_loop_pages]
  cases glue_page_chain api 50 none with
  | error e => rfl
  | ok pages => simp [Except.map]

/-- C8: the AI recommender's priority score is always between 0 and 100:
the threshold contributions for cost, efficiency, idle status and naming
issues are each nonnegative and the sum is capped with `min 100`. -/
theorem calculate_priority_score_bounds (preliminary_result : JobAnalysisResult)
    (performance_analysis : PerformanceAnalysis) :
    0 ≤ calculate_priority_score preliminary_result performance_analysis
    ∧ calculate_priority_score preliminary_result performance_analysis ≤ 100 := by
  unfold calculate_priority_score
  refine ⟨le_min (by norm_num) ?_, min_le_left _ _⟩
  have h1 : (0:ℚ) ≤ costScore preliminary_result.costEstimate.estimatedMonthlyBrl := by
    unfold costScore
    split_ifs <;> norm_num
  have h2 : (0:ℚ) ≤ effScore performance_analysis.efficiencyScore := by
    unfold effScore
    cases performance_analysis.efficiencyScore with
    | none => norm_num
    | some e =>
      show (0:ℚ) ≤
        if e ≠ 0 ∧ e < 30 then 30
        else if e ≠ 0 ∧ e < 50 then 20
        else if e ≠ 0 ∧ e < 70 then 10
        else 0
      split_ifs <;> norm_num
  have h3 : (0:ℚ) ≤ catScore preliminary_result.idleAnalysis.category := by
    unfold catScore
    cases preliminary_result.idleAnalysis.category <;> norm_num
  have h4 : (0:ℚ) ≤ nameScore preliminary_result.codeAnalysis.namingIssues := by
    unfold nameScore
    split_ifs <;> norm_num
  exact add_nonneg (add_nonneg (add_nonneg h1 h2) h3) h4

/-- C10: when the Glue API reports a `ClientError`,
`get_recent_runs` returns the empty list exactly for the error code
`EntityNotFoundException` and raises `ProviderError` for every other code,
while `get_job_details` raises `ProviderError` for every code,
`EntityNotFoundException` included. -/
theorem glue_entity_not_found_handling
    (apiD : String → Except ClientErr JobDetails)
    (apiR : String → Int → Except ClientErr (List JobRun))
    (job_name : String) (max_results : Int) (e : ClientErr)
    (hD : apiD job_name = Except.error e)
    (hR : apiR job_name max_results = Except.error e) :
    GlueProvider.get_recent_runs true apiR job_name max_results =
      (if e.code = "EntityNotFoundException" then Except.ok []
       else Except.error (PyErr.providerError ("Failed to get job runs: " ++ e.msg)))
    ∧ GlueProvider.get_job_details true apiD job_name =
      Except.error (PyErr.providerError
        (if e.code = "EntityNotFoundException" then "Job " ++ job_name ++ " not found"
         else "Failed to get job details: " ++ e.msg)) := by
  constructor
  · unfold GlueProvider.get_recent_runs
    rw [hR]
    by_cases hc : e.code = "EntityNotFoundException" <;> simp [hc]
  · unfold GlueProvider.get_job_details
    rw [hD]
    by_cases hc : e.code = "EntityNotFoundException" <;> simp [hc]

/-- Witness for C10 at the error code `EntityNotFoundException`: run
listing yields the empty list, detail lookup a `ProviderError`. -/
theorem glue_entity_not_found_handling_witness :
    ((fun name => Except.error ⟨"EntityNotFoundException", "err"⟩ :
        String → Except ClientErr JobDetails) "job1"
      = Except.error ⟨"EntityNotFoundException", "err"⟩)
    ∧ ((fun name mr => Except.error ⟨"EntityNotFoundException", "err"⟩ :
        String → Int → Except ClientErr (List JobRun)) "job1" 5
      = Except.error ⟨"EntityNotFoundException", "err"⟩)
    ∧ (GlueProvider.get_recent_runs true
        (fun name mr => Except.error ⟨"EntityNotFoundException", "err"⟩) "job1" 5 =
      (if ("EntityNotFoundException" : String) = "EntityNotFoundException" then Except.ok []
       else Except.error (PyErr.providerError ("Failed to get job runs: " ++ "err")))
      ∧ GlueProvider.get_job_details true
          (fun name => Except.error ⟨"EntityNotFoundException", "err"⟩) "job1" =
        Except.error (PyErr.providerError
          (if ("EntityNotFoundException" : String) = "EntityNotFoundException"
           then "Job " ++ "job1" ++ " not found"
           else "Failed to get job details: " ++ "err"))) :=
  ⟨rfl, rfl,
    glue_entity_not_found_handling
      (fun name => Except.error ⟨"EntityNotFoundException", "err"⟩)
      (fun name mr => Except.error ⟨"EntityNotFoundException", "err"⟩)
      "job1" 5 ⟨"EntityNotFoundException", "err"⟩ rfl rfl⟩
